import Mathlib

/-!
Verification of the cannect-app customer-intelligence pipeline.

This file gives a shallow embedding, in Lean 4, of the parts of the
repository that the specification talks about:

* `scripts/cannect-intel-v2/classifier/build_profiles.py`
  (profile aggregation: `most_common`, `flatten_arrays`,
  `calculate_posting_frequency`, `build_user_profile`,
  `get_users_with_posts`),
* `scripts/cannect-intel-v2/classifier/sync.py`
  (the `sync_posts` upsert into the `posts` table),
* `scripts/cannect-intel-v2/classifier/classifier_parallel.py`
  (`save_classification`, `process_batch_async`, response parsing),
* `scripts/cannect-intel/extractor.py` (`extract_insights` parsing).

Conventions used throughout the embedding:

* Python `None` becomes `Option.none`; nullable columns are `Option` types.
* Python numbers are embedded as exact `ℚ`/`ℤ`/`ℕ` arithmetic
  (the source only ever combines integers and the constants `0.5`, `0.25`,
  `7`, which are exactly representable, so exact arithmetic matches the
  float arithmetic on every input considered here).
* Timestamps are epoch seconds (`ℤ`); Python `timedelta.days` is therefore
  floor-division of the difference by 86400.
* Database tables are lists of row records; SQL upserts become explicit
  list transformations keyed on the natural key, and SQL iteration order
  that the source leaves unspecified (set iteration, equal-count ties) is
  modelled as first-observed order, which is what CPython's insertion
  ordered dicts and stable sorts produce.
-/

namespace Cannect

/-- Python `int(...)` applied to a real value: truncation toward zero. -/
def pyInt (q : ℚ) : ℤ := if q < 0 then -(⌊-q⌋) else ⌊q⌋

/-- Round an exact rational to the nearest integer, ties to even — the
rounding mode of Python's builtin `round`. -/
def roundHalfEven (q : ℚ) : ℤ :=
  let n := ⌊q⌋
  let r := q - (n : ℚ)
  if r < 1/2 then n
  else if 1/2 < r then n + 1
  else if n % 2 = 0 then n else n + 1

/-- Python `round(q, nd)` on exact rationals. -/
def pyRound (q : ℚ) (nd : ℕ) : ℚ :=
  (roundHalfEven (q * (10 : ℚ) ^ nd) : ℚ) / (10 : ℚ) ^ nd

/-- Auxiliary recursion for `distinctInOrder`: `seen` records the values
already emitted. -/
def distinctAux {α : Type} [DecidableEq α] : List α → List α → List α
  | [], _ => []
  | x :: xs, seen => if x ∈ seen then distinctAux xs seen else x :: distinctAux xs (x :: seen)

/-- Distinct elements of a list in order of first occurrence.  This is both
`set(...)`'s cardinality carrier and the key order of a CPython `Counter`
(dict insertion order). -/
def distinctInOrder {α : Type} [DecidableEq α] (l : List α) : List α :=
  distinctAux l []

/-- The filter `[i for i in items if i and i != 'unknown']` used by
`most_common` (build_profiles.py line 73) and by the secondary
consumer-type expression (line 168): Python truthiness drops `None` and
the empty string, and `'unknown'` is dropped explicitly. -/
def pyTruthyFilter (items : List (Option String)) : List String :=
  items.filterMap fun o =>
    match o with
    | none => none
    | some s => if s = "" ∨ s = "unknown" then none else some s

/-- Key order of `Counter(l).most_common(...)` (build_profiles.py lines
76-77, 137-140, 168): keys sorted by count descending, equal counts kept
in first-insertion order (CPython's sort is stable over dict insertion
order). -/
def ranking (l : List String) : List String :=
  List.insertionSort (fun a b => l.count b ≤ l.count a) (distinctInOrder l)

/-- Embeds `most_common` (build_profiles.py lines 71-77); every call site
uses the default `'unknown'`. -/
def most_common (items : List (Option String)) : String :=
  match ranking (pyTruthyFilter items) with
  | [] => "unknown"
  | x :: _ => x

/-- Embeds `dict(Counter(l))` (build_profiles.py lines 187-190). -/
def counterDict {α : Type} [DecidableEq α] (l : List α) : List (α × ℕ) :=
  (distinctInOrder l).map (fun x => (x, l.count x))

/-- The fields of a `post_classifications` row that `build_user_profile`
reads (build_profiles.py lines 116-129).  Array-valued fields are
`Option (List String)` because the row value may be SQL NULL. -/
structure Classification where
  consumer_type : Option String
  experience_level : Option String
  product_category : Option String
  sentiment : Option String
  sentiment_score : Option ℚ
  purchase_intent : Option ℚ
  occasion : Option String
  effects_mentioned : Option (List String)
  effects_desired : Option (List String)
  lifestyle_tags : Option (List String)
  frustrations : Option (List String)
  emotions : Option (List String)
  deriving DecidableEq, Repr

/-- One row of `get_users_with_posts`' result (build_profiles.py lines
41-54): the aggregates handed to `build_user_profile` as `user`. -/
structure UserRow where
  author_did : String
  author_handle : Option String
  post_count : ℕ
  first_post : Option ℤ
  last_post : Option ℤ
  deriving DecidableEq, Repr

/-- Embeds `flatten_arrays` (build_profiles.py lines 80-86): concatenate
the array field across classifications, skipping NULL arrays (for an
empty list the guard `if c.get(field)` skips it, which equals extending
by nothing), then drop empty strings. -/
def flatten_arrays (cls : List Classification)
    (field : Classification → Option (List String)) : List String :=
  ((cls.filterMap field).flatten).filter (fun x => x ≠ "")

/-- Python `timedelta.days` for a difference of epoch-second timestamps:
floor division by 86400 (Python's `timedelta` normalisation floors). -/
def timedeltaDays (seconds : ℤ) : ℤ := Int.fdiv seconds 86400

/-- Embeds `calculate_posting_frequency` (build_profiles.py lines
89-109).  `datetime` objects are always truthy in Python, so
`if not first_post or not last_post` is exactly the `none` test. -/
def calculate_posting_frequency (first_post last_post : Option ℤ)
    (post_count : ℕ) : String :=
  match first_post, last_post with
  | some f, some l =>
    let days := timedeltaDays (l - f)
    if days = 0 then "burst"
    else
      let posts_per_week : ℚ := ((post_count : ℚ) / (days : ℚ)) * 7
      if 7 ≤ posts_per_week then "daily"
      else if 3 ≤ posts_per_week then "several_weekly"
      else if 1 ≤ posts_per_week then "weekly"
      else if 1/4 ≤ posts_per_week then "monthly"
      else "occasional"
  | _, _ => "unknown"

/-- Embeds the secondary consumer-type expression (build_profiles.py line
168): `Counter([c for c in consumer_types if c and c != 'unknown'])
.most_common(2)[1][0] if len(set(consumer_types)) > 1 else None`.
The guard counts distinct values of the UNFILTERED list (with `None` and
`'unknown'` as members) while the indexed ranking is over the filtered
list; when the ranking has fewer than two entries the `[1]` raises
`IndexError`, embedded as `Except.error`. -/
def secondary_consumer_type_expr (consumer_types : List (Option String)) :
    Except String (Option String) :=
  if (distinctInOrder consumer_types).length > 1 then
    match ranking (pyTruthyFilter consumer_types) with
    | _ :: y :: _ => Except.ok (some y)
    | _ => Except.error "IndexError"
  else Except.ok none

/-- The profile dict returned by `build_user_profile` (build_profiles.py
lines 160-194); the `stats_json` sub-dict is inlined as the
`sentiment_distribution` … `stats_high_intent_posts` fields. -/
structure Profile where
  author_did : String
  author_handle : Option String
  first_seen_at : Option ℤ
  last_seen_at : Option ℤ
  posts_analyzed : ℕ
  primary_consumer_type : String
  secondary_consumer_type : Option String
  experience_level : String
  preferred_products : List String
  preferred_effects : List String
  typical_occasions : List String
  lifestyle_tags : List String
  avg_sentiment : ℚ
  posting_frequency : String
  frustrations : List String
  dispensary_target_score : ℤ
  wellness_brand_target_score : ℤ
  premium_product_target_score : ℤ
  accessory_target_score : ℤ
  sentiment_distribution : List (Option String × ℕ)
  consumer_type_distribution : List (Option String × ℕ)
  all_effects : List (String × ℕ)
  all_emotions : List (String × ℕ)
  stats_avg_purchase_intent : ℚ
  stats_high_intent_posts : ℕ
  deriving DecidableEq, Repr

/-- Embeds `build_user_profile` (build_profiles.py lines 112-194).
The only statement that can raise for well-typed rows is the secondary
consumer-type expression, so the function is `Except`-valued; all other
computation is pure.  `list(set(...))[:3]` (line 171) is modelled with
first-occurrence order for the set's iteration order. -/
def build_user_profile (user : UserRow) (classifications : List Classification) :
    Except String Profile :=
  let consumer_types := classifications.map (·.consumer_type)
  let experience_levels := classifications.map (·.experience_level)
  let product_categories := classifications.map (·.product_category)
  let sentiments := classifications.map (·.sentiment)
  let sentiment_scores := classifications.filterMap (·.sentiment_score)
  let purchase_intents := classifications.filterMap (·.purchase_intent)
  let effects := flatten_arrays classifications (·.effects_mentioned)
  let lifestyle_tags := flatten_arrays classifications (·.lifestyle_tags)
  let frustrations := flatten_arrays classifications (·.frustrations)
  let emotions := flatten_arrays classifications (·.emotions)
  let occasions : List String := classifications.filterMap fun c =>
    match c.occasion with
    | some s => if s = "" then none else some s
    | none => none
  let avg_sentiment : ℚ :=
    if sentiment_scores = [] then 0 else sentiment_scores.sum / (sentiment_scores.length : ℚ)
  let avg_purchase_intent : ℚ :=
    if purchase_intents = [] then 0 else purchase_intents.sum / (purchase_intents.length : ℚ)
  let high_intent_count := (purchase_intents.filter (fun p => 50 ≤ p)).length
  let top_effects := (ranking effects).take 5
  let top_frustrations := (ranking frustrations).take 3
  let top_lifestyle := (ranking lifestyle_tags).take 5
  let top_occasions := (ranking occasions).take 3
  let dispensary_score : ℤ := min 100 (pyInt
    (avg_purchase_intent * (1/2) + (high_intent_count : ℚ) * 10 + (user.post_count : ℚ) * 2))
  let wellness_score : ℤ := min 100 (pyInt
    ((if most_common consumer_types ∈ ["wellness", "medical"] then (50 : ℚ) else 0) +
      ((effects.filter (fun e => e ∈ ["relaxed", "calm", "sleep", "pain_relief"])).length : ℚ) * 10))
  let premium_score : ℤ := min 100 (pyInt
    ((if most_common consumer_types = "connoisseur" then (50 : ℚ) else 0) +
      (if most_common experience_levels ∈ ["expert", "daily"] then (30 : ℚ) else 0) +
      (user.post_count : ℚ) * 1))
  match secondary_consumer_type_expr consumer_types with
  | Except.error e => Except.error e
  | Except.ok secondary => Except.ok {
    author_did := user.author_did
    author_handle := user.author_handle
    first_seen_at := user.first_post
    last_seen_at := user.last_post
    posts_analyzed := user.post_count
    primary_consumer_type := most_common consumer_types
    secondary_consumer_type := secondary
    experience_level := most_common experience_levels
    preferred_products := (distinctInOrder (pyTruthyFilter product_categories)).take 3
    preferred_effects := top_effects
    typical_occasions := top_occasions
    lifestyle_tags := top_lifestyle
    avg_sentiment := pyRound avg_sentiment 2
    posting_frequency := calculate_posting_frequency user.first_post user.last_post user.post_count
    frustrations := top_frustrations
    dispensary_target_score := dispensary_score
    wellness_brand_target_score := wellness_score
    premium_product_target_score := premium_score
    accessory_target_score := min 100 ((user.post_count : ℤ) * 3)
    sentiment_distribution := counterDict sentiments
    consumer_type_distribution := counterDict consumer_types
    all_effects := counterDict effects
    all_emotions := counterDict emotions
    stats_avg_purchase_intent := pyRound avg_purchase_intent 1
    stats_high_intent_posts := high_intent_count }

/-- A spec-side definition, following the spec's words for step 5 of the
profile aggregator: "posts-per-week = posts × 7 / span_days, bucketed:
≥7 → daily, ≥3 → several_weekly, ≥1 → weekly, ≥0.25 → monthly, else
occasional". -/
def specFrequencyBucket (posts_per_week : ℚ) : String :=
  if 7 ≤ posts_per_week then "daily"
  else if 3 ≤ posts_per_week then "several_weekly"
  else if 1 ≤ posts_per_week then "weekly"
  else if 1/4 ≤ posts_per_week then "monthly"
  else "occasional"

/-- A classification row with every nullable field NULL except as
overridden; used for concrete scenarios. -/
def mkCls (ct : Option String) : Classification :=
  { consumer_type := ct, experience_level := none, product_category := none,
    sentiment := none, sentiment_score := none, purchase_intent := none,
    occasion := none, effects_mentioned := none, effects_desired := none,
    lifestyle_tags := none, frustrations := none, emotions := none }

section ProfileLemmas

lemma pyInt_nonneg {q : ℚ} (h : 0 ≤ q) : 0 ≤ pyInt q := by
  unfold pyInt
  rw [if_neg (not_lt.mpr h)]
  exact Int.floor_nonneg.mpr h

lemma pyInt_intCast (m : ℤ) : pyInt ((m : ℚ)) = m := by
  unfold pyInt
  split
  · rw [← Int.cast_neg, Int.floor_intCast]
    omega
  · exact Int.floor_intCast m

lemma pyRound_zero (nd : ℕ) : pyRound 0 nd = 0 := by
  unfold pyRound roundHalfEven
  norm_num

lemma listAvg_nonneg (l : List ℚ) (h : ∀ q ∈ l, 0 ≤ q) :
    0 ≤ (if l = [] then (0 : ℚ) else l.sum / (l.length : ℚ)) := by
  split
  · exact le_refl 0
  · exact div_nonneg (List.sum_nonneg h) (by positivity)

end ProfileLemmas

/-- C1 (amended): every targeting score produced by `build_user_profile`
is at most 100, and `wellness_brand_target_score`,
`premium_product_target_score` and `accessory_target_score` are
additionally nonnegative unconditionally; `dispensary_target_score` is
nonnegative provided every non-null `purchase_intent` is nonnegative.
There is no lower clamp, so this last proviso cannot be dropped (see the
counterexample). -/
theorem targeting_scores_range (u : UserRow) (cls : List Classification) (p : Profile)
    (h : build_user_profile u cls = Except.ok p) :
    p.dispensary_target_score ≤ 100 ∧ p.wellness_brand_target_score ≤ 100 ∧
    p.premium_product_target_score ≤ 100 ∧ p.accessory_target_score ≤ 100 ∧
    0 ≤ p.wellness_brand_target_score ∧ 0 ≤ p.premium_product_target_score ∧
    0 ≤ p.accessory_target_score ∧
    ((∀ q ∈ cls.filterMap (fun c => c.purchase_intent), 0 ≤ q) →
      0 ≤ p.dispensary_target_score) := by
  simp only [build_user_profile] at h
  cases hsec : secondary_consumer_type_expr (cls.map (·.consumer_type)) with
  | error e =>
    rw [hsec] at h
    exact Except.noConfusion h
  | ok s =>
    rw [hsec] at h
    injection h with h
    subst h
    refine ⟨min_le_left _ _, min_le_left _ _, min_le_left _ _, min_le_left _ _, ?_, ?_, ?_, ?_⟩
    · refine le_min (by norm_num) (pyInt_nonneg ?_)
      refine add_nonneg ?_ (by positivity)
      split <;> norm_num
    · refine le_min (by norm_num) (pyInt_nonneg ?_)
      refine add_nonneg (add_nonneg ?_ ?_) (by positivity)
      · split <;> norm_num
      · split <;> norm_num
    · exact le_min (by norm_num) (by positivity)
    · intro hq
      refine le_min (by norm_num) (pyInt_nonneg ?_)
      refine add_nonneg (add_nonneg ?_ (by positivity)) (by positivity)
      exact mul_nonneg (listAvg_nonneg _ hq) (by norm_num)

/-- A single-post author whose one classification carries the
out-of-range `purchase_intent = -300`. -/
def c1User : UserRow := ⟨"did:c1", none, 1, none, none⟩

/-- The classification for the C1 counterexample. -/
def c1Cls : Classification := { mkCls none with purchase_intent := some (-300) }

/-- C1 counterexample: with one post and `purchase_intent = -300` (an
out-of-range value, which the claim explicitly includes), the profile is
produced and its `dispensary_target_score` is `-148`, which is not in
`[0, 100]`: `min(100, int(...))` clamps only from above. -/
theorem dispensary_score_below_zero :
    (build_user_profile c1User [c1Cls]).toOption.map (·.dispensary_target_score) =
      some (-148) ∧ ¬ (0 : ℤ) ≤ -148 := by
  constructor
  · with_unfolding_all decide
  · decide

/-- Witness input for `targeting_scores_range`. -/
def c1wUser : UserRow := ⟨"w1", none, 1, none, none⟩

/-- The profile `build_user_profile` computes for `c1wUser` with no
classifications. -/
def c1wProfile : Profile :=
  { author_did := "w1", author_handle := none, first_seen_at := none,
    last_seen_at := none, posts_analyzed := 1,
    primary_consumer_type := "unknown", secondary_consumer_type := none,
    experience_level := "unknown", preferred_products := [],
    preferred_effects := [], typical_occasions := [], lifestyle_tags := [],
    avg_sentiment := 0, posting_frequency := "unknown", frustrations := [],
    dispensary_target_score := 2, wellness_brand_target_score := 0,
    premium_product_target_score := 1, accessory_target_score := 3,
    sentiment_distribution := [], consumer_type_distribution := [],
    all_effects := [], all_emotions := [], stats_avg_purchase_intent := 0,
    stats_high_intent_posts := 0 }

/-- Witness: `targeting_scores_range` applied at a concrete author. -/
theorem targeting_scores_range_witness :
    c1wProfile.dispensary_target_score ≤ 100 ∧
    c1wProfile.wellness_brand_target_score ≤ 100 ∧
    c1wProfile.premium_product_target_score ≤ 100 ∧
    c1wProfile.accessory_target_score ≤ 100 ∧
    0 ≤ c1wProfile.wellness_brand_target_score ∧
    0 ≤ c1wProfile.premium_product_target_score ∧
    0 ≤ c1wProfile.accessory_target_score ∧
    0 ≤ c1wProfile.dispensary_target_score := by
  have h := targeting_scores_range c1wUser [] c1wProfile (by with_unfolding_all rfl)
  exact ⟨h.1, h.2.1, h.2.2.1, h.2.2.2.1, h.2.2.2.2.1, h.2.2.2.2.2.1,
    h.2.2.2.2.2.2.1, h.2.2.2.2.2.2.2 (by simp)⟩

/-- C2: with consumer types `['wellness', 'unknown']` the unfiltered
list has two distinct values, so the guard passes, but the filtered
counter has a single entry and `most_common(2)[1]` raises `IndexError`;
`build_user_profile` propagates the exception instead of returning a
profile with a null secondary label. -/
theorem secondary_consumer_type_raises :
    build_user_profile ⟨"did:c2", none, 2, none, none⟩
      [mkCls (some "wellness"), mkCls (some "unknown")] =
      Except.error "IndexError" := by
  with_unfolding_all rfl

/-- C9: `calculate_posting_frequency` returns `unknown` when either
timestamp is missing, `burst` when the day-span is zero, and otherwise
buckets `post_count * 7 / span_days` exactly as the spec states. -/
theorem calculate_posting_frequency_spec (fp lp : Option ℤ) (pc : ℕ) :
    (fp = none ∨ lp = none → calculate_posting_frequency fp lp pc = "unknown") ∧
    (∀ f l : ℤ, fp = some f → lp = some l →
      (timedeltaDays (l - f) = 0 → calculate_posting_frequency fp lp pc = "burst") ∧
      (timedeltaDays (l - f) ≠ 0 →
        calculate_posting_frequency fp lp pc =
          specFrequencyBucket ((pc : ℚ) * 7 / (timedeltaDays (l - f) : ℚ)))) := by
  constructor
  · rintro (rfl | rfl)
    · rfl
    · cases fp <;> rfl
  · rintro f l rfl rfl
    constructor
    · intro hd
      simp [calculate_posting_frequency, hd]
    · intro hd
      have harith : ((pc : ℚ) / (timedeltaDays (l - f) : ℚ)) * 7 =
          (pc : ℚ) * 7 / (timedeltaDays (l - f) : ℚ) := by ring
      simp only [calculate_posting_frequency, specFrequencyBucket, if_neg hd, harith]

/-- Witness: the two boundary cases named by the claim — a 7-day span
with 7 posts is `daily`, a 30-day span with 2 posts is `monthly`. -/
theorem calculate_posting_frequency_spec_witness :
    calculate_posting_frequency (some 0) (some (7 * 86400)) 7 = "daily" ∧
    calculate_posting_frequency (some 0) (some (30 * 86400)) 2 = "monthly" := by
  constructor
  · have h := ((calculate_posting_frequency_spec (some 0) (some (7 * 86400)) 7).2
      0 (7 * 86400) rfl rfl).2 (by decide)
    rw [h]
    with_unfolding_all decide
  · have h := ((calculate_posting_frequency_spec (some 0) (some (30 * 86400)) 2).2
      0 (30 * 86400) rfl rfl).2 (by decide)
    rw [h]
    with_unfolding_all decide

/-- C10: when every `sentiment_score` is NULL, `avg_sentiment` is 0; when
every `purchase_intent` is NULL, the average intent and the high-intent
count are 0, so `dispensary_target_score` degenerates to
`min(100, int(2 * post_count))`. -/
theorem null_aggregates_default_zero (u : UserRow) (cls : List Classification) (p : Profile)
    (h : build_user_profile u cls = Except.ok p) :
    ((∀ c ∈ cls, c.sentiment_score = none) → p.avg_sentiment = 0) ∧
    ((∀ c ∈ cls, c.purchase_intent = none) →
      p.stats_avg_purchase_intent = 0 ∧ p.stats_high_intent_posts = 0 ∧
      p.dispensary_target_score = min 100 (2 * (u.post_count : ℤ))) := by
  simp only [build_user_profile] at h
  cases hsec : secondary_consumer_type_expr (cls.map (·.consumer_type)) with
  | error e =>
    rw [hsec] at h
    exact Except.noConfusion h
  | ok s =>
    rw [hsec] at h
    injection h with h
    subst h
    constructor
    · intro hnull
      have hempty : cls.filterMap (fun c => c.sentiment_score) = [] :=
        List.filterMap_eq_nil_iff.mpr hnull
      show pyRound (if cls.filterMap (fun c => c.sentiment_score) = []
        then (0 : ℚ) else _) 2 = 0
      rw [if_pos hempty, pyRound_zero]
    · intro hnull
      have hempty : cls.filterMap (fun c => c.purchase_intent) = [] :=
        List.filterMap_eq_nil_iff.mpr hnull
      refine ⟨?_, ?_, ?_⟩
      · show pyRound (if cls.filterMap (fun c => c.purchase_intent) = []
          then (0 : ℚ) else _) 1 = 0
        rw [if_pos hempty, pyRound_zero]
      · show (List.filter _ (cls.filterMap (fun c => c.purchase_intent))).length = 0
        rw [hempty]
        rfl
      · show min 100 (pyInt
          ((if cls.filterMap (fun c => c.purchase_intent) = [] then (0 : ℚ) else _) * (1/2) +
            ((List.filter _ (cls.filterMap (fun c => c.purchase_intent))).length : ℚ) * 10 +
            (u.post_count : ℚ) * 2)) = min 100 (2 * (u.post_count : ℤ))
        rw [if_pos hempty, hempty]
        simp only [List.filter_nil, List.length_nil, Nat.cast_zero]
        have hval : (0 : ℚ) * (1/2) + 0 * 10 + (u.post_count : ℚ) * 2 =
            ((2 * (u.post_count : ℤ) : ℤ) : ℚ) := by
          push_cast
          ring
        rw [hval, pyInt_intCast]

/-- Witness input for `null_aggregates_default_zero`. -/
def c10User : UserRow := ⟨"w10", none, 4, none, none⟩

/-- The profile computed for `c10User` from one all-NULL classification. -/
def c10Profile : Profile :=
  { author_did := "w10", author_handle := none, first_seen_at := none,
    last_seen_at := none, posts_analyzed := 4,
    primary_consumer_type := "unknown", secondary_consumer_type := none,
    experience_level := "unknown", preferred_products := [],
    preferred_effects := [], typical_occasions := [], lifestyle_tags := [],
    avg_sentiment := 0, posting_frequency := "unknown", frustrations := [],
    dispensary_target_score := 8, wellness_brand_target_score := 0,
    premium_product_target_score := 4, accessory_target_score := 12,
    sentiment_distribution := [(none, 1)], consumer_type_distribution := [(none, 1)],
    all_effects := [], all_emotions := [], stats_avg_purchase_intent := 0,
    stats_high_intent_posts := 0 }

/-- Witness: `null_aggregates_default_zero` at an author with four posts
and one all-NULL classification. -/
theorem null_aggregates_default_zero_witness :
    c10Profile.avg_sentiment = 0 ∧ c10Profile.stats_avg_purchase_intent = 0 ∧
    c10Profile.stats_high_intent_posts = 0 ∧
    c10Profile.dispensary_target_score = min 100 (2 * (c10User.post_count : ℤ)) := by
  have h := null_aggregates_default_zero c10User [mkCls none] c10Profile
    (by with_unfolding_all rfl)
  have h1 := h.1 (by
    intro c hc
    rw [List.mem_singleton] at hc
    subst hc
    rfl)
  have h2 := h.2 (by
    intro c hc
    rw [List.mem_singleton] at hc
    subst hc
    rfl)
  exact ⟨h1, h2.1, h2.2.1, h2.2.2⟩

/-! Embedding of the `posts` table and of `sync_posts`' upsert
(sync.py lines 164-189), of `save_classification` and
`process_batch_async` (classifier_parallel.py lines 180-298). -/

/-- One row of the PostgreSQL `posts` table (columns as listed in
sync.py lines 168-171 plus `processed_at`/`classification_version`,
which the classifier maintains).  The schema file is not part of the
repository; the fresh-row defaults below (`processed_at` NULL until
classified, integer `classification_version`) follow the spec's data
model for Post. -/
structure PostRow where
  id : ℕ
  uri : String
  cid : Option String
  author_did : String
  author_handle : Option String
  post_created_at : ℤ
  indexed_at : ℤ
  text_content : Option String
  facets : Option String
  langs : Option (List String)
  has_media : Bool
  media_count : ℕ
  embed_type : Option String
  embed_data : Option String
  processed_at : Option ℤ
  classification_version : ℤ
  deriving DecidableEq, Repr

/-- One element of `posts_data` (sync.py lines 148-162): the values the
sync INSERT supplies.  `media_count` is always `0` and `embed_data`
always NULL in the source tuple, so they are fixed in
`insertFreshPost` rather than carried here. -/
structure IncomingPost where
  uri : String
  cid : Option String
  author_did : String
  author_handle : Option String
  post_created_at : ℤ
  indexed_at : ℤ
  text_content : Option String
  facets : Option String
  langs : Option (List String)
  has_media : Bool
  embed_type : Option String
  deriving DecidableEq, Repr

/-- SQL `COALESCE(a, b)`: the first non-null argument. -/
def coalesce {α : Type} (a b : Option α) : Option α :=
  match a with
  | some x => some x
  | none => b

/-- The `ON CONFLICT (uri) DO UPDATE SET` clause of the sync upsert
(sync.py lines 172-177): `text_content`, `facets` and `langs` through
COALESCE, `has_media` and `embed_type` unconditionally; every other
column of the existing row is left untouched. -/
def syncMerge (old : PostRow) (inc : IncomingPost) : PostRow :=
  { old with
    text_content := coalesce inc.text_content old.text_content
    facets := coalesce inc.facets old.facets
    langs := coalesce inc.langs old.langs
    has_media := inc.has_media
    embed_type := inc.embed_type }

/-- A freshly inserted post row (no conflict): the INSERT column list of
sync.py lines 168-171, with `newId` standing for the serial `id` the
database assigns and classifier-maintained columns at their defaults. -/
def insertFreshPost (inc : IncomingPost) (newId : ℕ) : PostRow :=
  { id := newId, uri := inc.uri, cid := inc.cid, author_did := inc.author_did,
    author_handle := inc.author_handle, post_created_at := inc.post_created_at,
    indexed_at := inc.indexed_at, text_content := inc.text_content,
    facets := inc.facets, langs := inc.langs, has_media := inc.has_media,
    media_count := 0, embed_type := inc.embed_type, embed_data := none,
    processed_at := none, classification_version := 0 }

/-- One row of the `INSERT INTO posts ... ON CONFLICT (uri) DO UPDATE`
bulk upsert of `sync_posts` (sync.py lines 164-178), applied to a table
keyed on `uri`. -/
def syncUpsert (t : List PostRow) (inc : IncomingPost) (newId : ℕ) : List PostRow :=
  if t.any (fun r => r.uri == inc.uri) then
    t.map (fun r => if r.uri == inc.uri then syncMerge r inc else r)
  else t ++ [insertFreshPost inc newId]

/-- C3 (amended): on a `uri` conflict the sync upsert takes
`text_content`, `facets` and `langs` with COALESCE semantics (a null
incoming value keeps the stored value), but overwrites `has_media` and
`embed_type` unconditionally with the incoming values, and never touches
`processed_at` or `classification_version` (nor the identity and capture
columns). -/
theorem sync_upsert_conflict_fields (old : PostRow) (inc : IncomingPost) (newId : ℕ)
    (h : old.uri = inc.uri) :
    syncUpsert [old] inc newId = [syncMerge old inc] ∧
    (syncMerge old inc).text_content = coalesce inc.text_content old.text_content ∧
    (syncMerge old inc).facets = coalesce inc.facets old.facets ∧
    (syncMerge old inc).langs = coalesce inc.langs old.langs ∧
    (syncMerge old inc).has_media = inc.has_media ∧
    (syncMerge old inc).embed_type = inc.embed_type ∧
    (syncMerge old inc).processed_at = old.processed_at ∧
    (syncMerge old inc).classification_version = old.classification_version ∧
    (syncMerge old inc).author_handle = old.author_handle ∧
    (syncMerge old inc).post_created_at = old.post_created_at ∧
    (syncMerge old inc).indexed_at = old.indexed_at := by
  refine ⟨?_, rfl, rfl, rfl, rfl, rfl, rfl, rfl, rfl, rfl, rfl⟩
  simp [syncUpsert, h]

/-- The stored post row for the C3 counterexample: already classified,
with a recorded embed type. -/
def c3Old : PostRow :=
  { id := 7, uri := "at://post/1", cid := some "cid1", author_did := "did:c3",
    author_handle := some "alice.test", post_created_at := 100,
    indexed_at := 200, text_content := some "hello", facets := none,
    langs := some ["en"], has_media := true, media_count := 0,
    embed_type := some "image", embed_data := none, processed_at := some 300,
    classification_version := 1 }

/-- The re-synced row for the C3 counterexample: same `uri`, but NULL
`text_content` and NULL `embed_type`. -/
def c3Inc : IncomingPost :=
  { uri := "at://post/1", cid := some "cid1", author_did := "did:c3",
    author_handle := some "alice.test", post_created_at := 100,
    indexed_at := 400, text_content := none, facets := none, langs := none,
    has_media := false, embed_type := none }

/-- C3 counterexample: an incoming row with NULL `embed_type` (and
`has_media = false`) wipes the stored `embed_type = 'image'` and
`has_media = true` — COALESCE semantics would have kept them.
(`text_content`, which does go through COALESCE, is kept.) -/
theorem sync_upsert_overwrites_embed_type_with_null :
    (syncUpsert [c3Old] c3Inc 99).map (fun r => r.embed_type) = [none] ∧
    (syncUpsert [c3Old] c3Inc 99).map (fun r => r.has_media) = [false] ∧
    coalesce c3Inc.embed_type c3Old.embed_type = some "image" ∧
    (syncUpsert [c3Old] c3Inc 99).map (fun r => r.text_content) = [some "hello"] := by
  refine ⟨?_, ?_, rfl, ?_⟩ <;> rfl

/-- Witness: `sync_upsert_conflict_fields` at the concrete conflicting
pair `c3Old`/`c3Inc`. -/
theorem sync_upsert_conflict_fields_witness :
    syncUpsert [c3Old] c3Inc 99 = [syncMerge c3Old c3Inc] ∧
    (syncMerge c3Old c3Inc).text_content = coalesce c3Inc.text_content c3Old.text_content ∧
    (syncMerge c3Old c3Inc).processed_at = c3Old.processed_at ∧
    (syncMerge c3Old c3Inc).classification_version = c3Old.classification_version := by
  have h := sync_upsert_conflict_fields c3Old c3Inc 99 rfl
  exact ⟨h.1, h.2.1, h.2.2.2.2.2.2.1, h.2.2.2.2.2.2.2.1⟩

/-- One row of `post_classifications`: the column list of the
`save_classification` INSERT (classifier_parallel.py lines 184-209) plus
`classified_at` (maintained by the database default on insert and by the
conflict clause).  Values already carry the `.get(...)` defaults the
source applies when building the parameter tuple (lines 214-252). -/
structure ClassRow where
  post_id : ℕ
  model_version : String
  confidence : ℚ
  processing_ms : Option ℤ
  experience_level : Option String
  consumer_type : Option String
  lifestyle_tags : Option (List String)
  occasion : Option String
  setting : Option String
  mood_before : Option String
  mood_after : Option String
  time_of_day : Option String
  is_ritual : Bool
  intent_type : Option String
  purchase_intent : Option ℚ
  purchase_stage : Option String
  product_category : Option String
  effects_mentioned : Option (List String)
  effects_desired : Option (List String)
  quality_perception : Option String
  dosage_pattern : Option String
  post_type : Option String
  media_type : Option String
  sentiment : Option String
  sentiment_score : Option ℚ
  emotions : Option (List String)
  brand_mentioned : Option String
  strain_mentioned : Option String
  dispensary_mentioned : Option String
  price_mentioned : Bool
  price_sentiment : Option String
  frustrations : Option (List String)
  region_hint : Option String
  legal_context : Option String
  data_richness : Option ℚ
  business_value : Option String
  audience_segments : Option (List String)
  raw_response : String
  classified_at : ℤ
  deriving DecidableEq, Repr

/-- Key test of the `post_classifications` upsert: composite key
`(post_id, model_version)`. -/
def classKeyMatch (x r : ClassRow) : Bool :=
  x.post_id == r.post_id && x.model_version == r.model_version

/-- The `INSERT INTO post_classifications ... ON CONFLICT (post_id,
model_version) DO UPDATE SET confidence = EXCLUDED.confidence,
processing_ms = EXCLUDED.processing_ms, classified_at = NOW()` statement
(classifier_parallel.py lines 184-253): on a key conflict only the three
telemetry columns change; otherwise the row is appended with
`classified_at` set to the call time `now`. -/
def insertClassification (t : List ClassRow) (r : ClassRow) (now : ℤ) : List ClassRow :=
  if t.any (fun x => classKeyMatch x r) then
    t.map (fun x => if classKeyMatch x r then
      { x with
        confidence := r.confidence
        processing_ms := r.processing_ms
        classified_at := now }
      else x)
  else t ++ [{ r with classified_at := now }]

/-- The `UPDATE posts SET processed_at = NOW(), classification_version = 1
WHERE id = %s` statement of `save_classification`
(classifier_parallel.py lines 255-258). -/
def classifierPostUpdate (p : PostRow) (now : ℤ) : PostRow :=
  { p with processed_at := some now, classification_version := 1 }

/-- Embeds `save_classification` (classifier_parallel.py lines 180-260):
upsert the classification row, then stamp the post. -/
def save_classification (cls : List ClassRow) (posts : List PostRow)
    (row : ClassRow) (now : ℤ) : List ClassRow × List PostRow :=
  (insertClassification cls row now,
   posts.map (fun p => if p.id == row.post_id then classifierPostUpdate p now else p))

/-- C4 (amended): `save_classification` sets the post's `processed_at`
to the current time but sets `classification_version` to the constant 1
rather than incrementing it — the post matched by id receives exactly
`{ processed_at := now, classification_version := 1 }` regardless of the
stored version. -/
theorem save_classification_post_effect (cls : List ClassRow) (posts : List PostRow)
    (row : ClassRow) (now : ℤ) :
    (save_classification cls posts row now).2 =
      posts.map (fun p => if p.id == row.post_id then
        { p with processed_at := some now, classification_version := 1 } else p) := by
  rfl

/-- A concrete classification row for post 1 under the pinned model
version (MODEL_VERSION, classifier_parallel.py line 36), with the
source's `.get` defaults (`confidence` 80, flags false). -/
def baseClassRow : ClassRow :=
  { post_id := 1, model_version := "deepseek-chat-20260131", confidence := 80,
    processing_ms := some 900, experience_level := some "casual",
    consumer_type := some "wellness", lifestyle_tags := none, occasion := none,
    setting := none, mood_before := none, mood_after := none,
    time_of_day := none, is_ritual := false, intent_type := none,
    purchase_intent := some 40, purchase_stage := none,
    product_category := some "flower", effects_mentioned := some ["relaxed"],
    effects_desired := none, quality_perception := none, dosage_pattern := none,
    post_type := some "experience", media_type := none,
    sentiment := some "positive", sentiment_score := some 60, emotions := none,
    brand_mentioned := none, strain_mentioned := none,
    dispensary_mentioned := none, price_mentioned := false,
    price_sentiment := none, frustrations := none, region_hint := none,
    legal_context := none, data_richness := some 5,
    business_value := some "medium", audience_segments := none,
    raw_response := "r1", classified_at := 0 }

/-- The post row the C4 counterexample classifies twice. -/
def c4Post : PostRow :=
  { id := 1, uri := "at://post/4", cid := none, author_did := "did:c4",
    author_handle := none, post_created_at := 10, indexed_at := 20,
    text_content := some "text", facets := none, langs := none,
    has_media := false, media_count := 0, embed_type := none,
    embed_data := none, processed_at := none, classification_version := 0 }

/-- C4 counterexample: classifying the same post twice leaves
`classification_version` at 1, where the claim's increment semantics
would give 2 for the second (k = 2) classification. -/
theorem classification_version_not_incremented :
    ((save_classification
        (save_classification [] [c4Post] baseClassRow 5).1
        (save_classification [] [c4Post] baseClassRow 5).2
        baseClassRow 6).2.map (fun p => p.classification_version)) = [1] ∧
    (1 : ℤ) ≠ 2 := by
  constructor
  · rfl
  · decide

/-- C5: re-running `save_classification`'s upsert for the same
`(post_id, model_version)` key updates only `confidence`,
`processing_ms` and `classified_at`; every semantic field keeps the
first row's value, and the table still holds exactly one row. -/
theorem reclassify_same_version_telemetry_only (r1 r2 : ClassRow) (now1 now2 : ℤ)
    (hp : r2.post_id = r1.post_id) (hm : r2.model_version = r1.model_version) :
    insertClassification (insertClassification [] r1 now1) r2 now2 =
      [{ r1 with
         confidence := r2.confidence
         processing_ms := r2.processing_ms
         classified_at := now2 }] := by
  simp [insertClassification, classKeyMatch, hp, hm]

/-- The first classification row of the C5 witness. -/
def c5r1 : ClassRow := { baseClassRow with raw_response := "first" }

/-- The second classification of the same post under the same model
version: different telemetry and (attempted) different semantic values. -/
def c5r2 : ClassRow :=
  { baseClassRow with
    confidence := 95
    processing_ms := some 1200
    consumer_type := some "medical"
    sentiment := some "negative"
    raw_response := "second" }

/-- Witness: `reclassify_same_version_telemetry_only` at two concrete
rows sharing the `(post_id, model_version)` key. -/
theorem reclassify_same_version_telemetry_only_witness :
    insertClassification (insertClassification [] c5r1 10) c5r2 20 =
      [{ c5r1 with
         confidence := c5r2.confidence
         processing_ms := c5r2.processing_ms
         classified_at := 20 }] :=
  reclassify_same_version_telemetry_only c5r1 c5r2 10 20 rfl rfl

/-- Embeds `get_unprocessed_posts` (classifier_parallel.py lines
121-134): posts with NULL `processed_at` and non-empty text, ordered by
`post_created_at` descending, capped at `limit`. -/
def get_unprocessed_posts (posts : List PostRow) (limit : ℕ) : List PostRow :=
  ((posts.filter (fun p =>
      decide (p.processed_at = none ∧ p.text_content ≠ none ∧ p.text_content ≠ some ""))).insertionSort
    (fun a b => b.post_created_at ≤ a.post_created_at)).take limit

/-- Embeds the result loop of `process_batch_async`
(classifier_parallel.py lines 284-292): each `(post_id, classification,
error)` triple with a non-null classification is saved (which stamps the
post), counting successes; a failed triple only bumps the error count
and touches nothing. -/
def run_results (now : ℤ) :
    List (ℕ × Option ClassRow) → ℕ × List ClassRow × List PostRow →
      ℕ × List ClassRow × List PostRow
  | [], st => st
  | (pid, some row) :: rest, (n, cls, posts) =>
    let s := save_classification cls posts { row with post_id := pid } now
    run_results now rest (n + 1, s.1, s.2)
  | (_, none) :: rest, st => run_results now rest st

/-- Embeds `process_batch_async` (classifier_parallel.py lines 263-298)
with the external classifier abstracted as an oracle
`f : PostRow → Option ClassRow` (`none` = network error, timeout or
malformed JSON for that post, as produced by `classify_post_async`).
Returns the count of successfully classified posts together with the
updated tables. -/
def process_batch (cls : List ClassRow) (posts : List PostRow)
    (f : PostRow → Option ClassRow) (limit : ℕ) (now : ℤ) :
    ℕ × List ClassRow × List PostRow :=
  let batch := get_unprocessed_posts posts limit
  run_results now (batch.map (fun p => (p.id, f p))) (0, cls, posts)

section BatchLemmas

lemma run_results_count (now : ℤ) (rs : List (ℕ × Option ClassRow)) (n : ℕ)
    (cls : List ClassRow) (posts : List PostRow) :
    (run_results now rs (n, cls, posts)).1 =
      n + (rs.filter (fun r => r.2.isSome)).length := by
  induction rs generalizing n cls posts with
  | nil => simp [run_results]
  | cons hd tl ih =>
    obtain ⟨pid, c⟩ := hd
    cases c with
    | none => simp [run_results, ih]
    | some row =>
      simp [run_results, ih, List.filter_cons]
      omega

lemma run_results_preserves (now : ℤ) (rs : List (ℕ × Option ClassRow)) (n : ℕ)
    (cls : List ClassRow) (posts : List PostRow) (p : PostRow) (hp : p ∈ posts)
    (hid : ∀ r ∈ rs, r.2.isSome = true → r.1 ≠ p.id) :
    p ∈ (run_results now rs (n, cls, posts)).2.2 := by
  induction rs generalizing n cls posts with
  | nil => simpa [run_results] using hp
  | cons hd tl ih =>
    obtain ⟨pid, c⟩ := hd
    cases c with
    | none =>
      exact ih n cls posts hp (fun r hr => hid r (List.mem_cons_of_mem _ hr))
    | some row =>
      have hne : pid ≠ p.id := hid (pid, some row) (List.mem_cons_self _ _) rfl
      refine ih (n + 1) _ _ ?_ (fun r hr => hid r (List.mem_cons_of_mem _ hr))
      show p ∈ posts.map (fun q =>
        if q.id == ({ row with post_id := pid } : ClassRow).post_id
        then classifierPostUpdate q now else q)
      refine List.mem_map.mpr ⟨p, hp, ?_⟩
      have : (p.id == pid) = false := beq_eq_false_iff_ne.mpr (fun h => hne h.symm)
      simp [this]

end BatchLemmas

/-- C6: a per-post classification failure does not abort the batch —
`process_batch` returns exactly the number of selected posts whose
classification succeeded, and every selected post whose classification
failed is still present, untouched, with `processed_at` NULL (so the
next batch can select it again).  The hypothesis asks post ids to be
unique, which the serial primary key guarantees. -/
theorem batch_failure_isolation (cls : List ClassRow) (posts : List PostRow)
    (f : PostRow → Option ClassRow) (limit : ℕ) (now : ℤ)
    (hids : (posts.map (fun p => p.id)).Nodup) :
    (process_batch cls posts f limit now).1 =
      ((get_unprocessed_posts posts limit).filter (fun p => (f p).isSome)).length ∧
    ∀ p ∈ get_unprocessed_posts posts limit, f p = none →
      p ∈ (process_batch cls posts f limit now).2.2 ∧ p.processed_at = none := by
  have hsub : get_unprocessed_posts posts limit ⊆ posts := by
    intro x hx
    unfold get_unprocessed_posts at hx
    have hx1 := List.take_subset _ _ hx
    have hx2 := (List.perm_insertionSort
      (fun a b : PostRow => b.post_created_at ≤ a.post_created_at) _).subset hx1
    exact (List.mem_filter.mp hx2).1
  constructor
  · show (run_results now _ (0, cls, posts)).1 = _
    rw [run_results_count]
    rw [List.filter_map]
    simp only [List.length_map, Nat.zero_add]
    rfl
  · intro p hpbatch hpf
    constructor
    · apply run_results_preserves now _ 0 cls posts p (hsub hpbatch)
      rintro ⟨pid, c⟩ hr hsome hcontra
      obtain ⟨q, hq, heq⟩ := List.mem_map.mp hr
      have h1 : q.id = pid := congrArg Prod.fst heq
      have h2 : f q = c := congrArg Prod.snd heq
      have hqp : q = p :=
        List.inj_on_of_nodup_map hids (hsub hq) (hsub hpbatch) (h1.trans hcontra)
      rw [hqp, hpf] at h2
      rw [← h2] at hsome
      exact Bool.noConfusion hsome
    · have hmem : p ∈ posts.filter (fun p =>
          decide (p.processed_at = none ∧ p.text_content ≠ none ∧ p.text_content ≠ some "")) := by
        unfold get_unprocessed_posts at hpbatch
        exact (List.perm_insertionSort
          (fun a b : PostRow => b.post_created_at ≤ a.post_created_at) _).subset
          (List.take_subset _ _ hpbatch)
      exact (of_decide_eq_true (List.mem_filter.mp hmem).2).1

/-- A concrete unprocessed post with id `i`. -/
def mkPost (i : ℕ) : PostRow :=
  { id := i, uri := "u", cid := none, author_did := "d", author_handle := none,
    post_created_at := (i : ℤ), indexed_at := 0, text_content := some "t",
    facets := none, langs := none, has_media := false, media_count := 0,
    embed_type := none, embed_data := none, processed_at := none,
    classification_version := 0 }

/-- Ten unprocessed posts, ids 0-9. -/
def tenPosts : List PostRow := (List.range 10).map mkPost

/-- A classifier oracle that fails exactly on post 3. -/
def failOn3 (p : PostRow) : Option ClassRow :=
  if p.id = 3 then none else some baseClassRow

/-- Witness: one injected failure in a 10-post batch gives return value
9, and post 3 survives unprocessed. -/
theorem batch_failure_isolation_witness :
    (process_batch [] tenPosts failOn3 100 7).1 = 9 ∧
    mkPost 3 ∈ (process_batch [] tenPosts failOn3 100 7).2.2 ∧
    (mkPost 3).processed_at = none := by
  have h := batch_failure_isolation [] tenPosts failOn3 100 7 (by decide)
  refine ⟨?_, ?_, rfl⟩
  · rw [h.1]
    rfl
  · exact (h.2 (mkPost 3) (by decide) rfl).1

/-- The `posts JOIN post_classifications ON p.id = pc.post_id` rows
underlying `get_users_with_posts` (build_profiles.py lines 48-49): one
pair per (post, classification-row) combination. -/
def joinPairs (posts : List PostRow) (cls : List ClassRow) : List (PostRow × ClassRow) :=
  posts.flatMap (fun p => (cls.filter (fun pc => pc.post_id == p.id)).map (fun pc => (p, pc)))

/-- `COUNT(1)` of the join grouped on one author: the number of join
pairs whose post belongs to `did`. -/
def authorJoinCount (posts : List PostRow) (cls : List ClassRow) (did : String) : ℕ :=
  ((joinPairs posts cls).filter (fun pr => pr.1.author_did == did)).length

/-- Embeds `get_users_with_posts` (build_profiles.py lines 37-54):
group the join by `author_did`, aggregate `COUNT(1)`,
`MAX(author_handle)`, `MIN`/`MAX(post_created_at)`, keep groups with
`COUNT(1) >= min_posts`, order by the count descending (ties in
first-observed group order, which SQL leaves unspecified). -/
def get_users_with_posts (posts : List PostRow) (cls : List ClassRow)
    (min_posts : ℕ) : List UserRow :=
  let pairs := joinPairs posts cls
  let authors := distinctInOrder (pairs.map (fun pr => pr.1.author_did))
  (authors.filterMap (fun did =>
    let mine := pairs.filter (fun pr => pr.1.author_did == did)
    if min_posts ≤ mine.length then
      some { author_did := did,
             author_handle := (mine.filterMap (fun pr => pr.1.author_handle)).max?,
             post_count := mine.length,
             first_post := (mine.map (fun pr => pr.1.post_created_at)).min?,
             last_post := (mine.map (fun pr => pr.1.post_created_at)).max? }
    else none)).insertionSort (fun a b => b.post_count ≤ a.post_count)

/-- A spec-side definition, following the spec's words: "posts_analyzed
equals the count of distinct classified posts for that author" — each
post counted once when it has at least one classification row, however
many model versions it was classified under. -/
def specDistinctClassifiedPosts (posts : List PostRow) (cls : List ClassRow)
    (did : String) : ℕ :=
  ((posts.filter (fun p => p.author_did == did)).filter
    (fun p => cls.any (fun pc => pc.post_id == p.id))).length

/-- C8 (amended): every row produced by `get_users_with_posts` carries
`post_count` equal to the JOIN-row count for its author — one count per
classification row, so a post classified under several model versions is
counted once per version, not once — and rows appear exactly for
join-counts at least `min_posts`; `build_user_profile` then copies that
count into `posts_analyzed` unchanged. -/
theorem users_with_posts_join_count (posts : List PostRow) (cls : List ClassRow)
    (min_posts : ℕ) (u : UserRow)
    (hu : u ∈ get_users_with_posts posts cls min_posts) :
    u.post_count = authorJoinCount posts cls u.author_did ∧
    min_posts ≤ u.post_count ∧
    ∀ (cls2 : List Classification) (p : Profile),
      build_user_profile u cls2 = Except.ok p → p.posts_analyzed = u.post_count := by
  have hbuild : ∀ (u' : UserRow) (cls2 : List Classification) (p : Profile),
      build_user_profile u' cls2 = Except.ok p → p.posts_analyzed = u'.post_count := by
    intro u' cls2 p hp
    simp only [build_user_profile] at hp
    cases hsec : secondary_consumer_type_expr (cls2.map (·.consumer_type)) with
    | error e =>
      rw [hsec] at hp
      exact Except.noConfusion hp
    | ok s =>
      rw [hsec] at hp
      injection hp with hp
      subst hp
      rfl
  simp only [get_users_with_posts] at hu
  have hu2 := (List.perm_insertionSort
    (fun a b : UserRow => b.post_count ≤ a.post_count) _).subset hu
  obtain ⟨did, _hdid, hif⟩ := List.mem_filterMap.mp hu2
  split at hif
  case isTrue hlen =>
    injection hif with hif
    subst hif
    exact ⟨rfl, hlen, hbuild _⟩
  case isFalse => exact Option.noConfusion hif

/-- The single post of the C8 counterexample's author. -/
def c8Post : PostRow :=
  { id := 1, uri := "at://p8", cid := none, author_did := "did:c8",
    author_handle := none, post_created_at := 50, indexed_at := 1,
    text_content := some "x", facets := none, langs := none,
    has_media := false, media_count := 0, embed_type := none,
    embed_data := none, processed_at := some 60, classification_version := 1 }

/-- A second classification of the same post under a newer model
version. -/
def c8RowV2 : ClassRow := { baseClassRow with model_version := "deepseek-chat-20270101" }

/-- C8 counterexample: one author, one post, classified under two model
versions.  `get_users_with_posts` reports `post_count = 2` where the
number of distinct classified posts is 1, and with `min_posts = 2` the
author still receives a row although only 1 distinct post exists. -/
theorem post_count_double_counts_model_versions :
    (get_users_with_posts [c8Post] [baseClassRow, c8RowV2] 1).map
      (fun u => u.post_count) = [2] ∧
    specDistinctClassifiedPosts [c8Post] [baseClassRow, c8RowV2] "did:c8" = 1 ∧
    (2 : ℕ) ≠ 1 ∧
    (get_users_with_posts [c8Post] [baseClassRow, c8RowV2] 2).length = 1 := by
  refine ⟨rfl, rfl, by decide, rfl⟩

/-- The user row `get_users_with_posts` produces for the C8 author. -/
def c8User : UserRow := ⟨"did:c8", none, 2, some 50, some 50⟩

/-- Witness: `users_with_posts_join_count` at the concrete two-version
author. -/
theorem users_with_posts_join_count_witness :
    c8User.post_count = authorJoinCount [c8Post] [baseClassRow, c8RowV2] c8User.author_did ∧
    1 ≤ c8User.post_count := by
  have h := users_with_posts_join_count [c8Post] [baseClassRow, c8RowV2] 1 c8User (by decide)
  exact ⟨h.1, h.2.1⟩

/-! Response parsing (claim C7).  `classify_post_async`
(classifier_parallel.py lines 164-177) does a single direct
`json.loads` on the response and treats `JSONDecodeError` as a per-post
failure; `extract_insights` (extractor.py lines 104-113) instead slices
the response from the first opening brace to the last closing brace and
parses only that substring.  `json.loads` itself is Python library code,
modelled here by an executable JSON reader. -/

/-- A parsed JSON value (the result type of the `json.loads` model). -/
inductive PyJson where
  | null : PyJson
  | bool : Bool → PyJson
  | num : ℚ → PyJson
  | str : String → PyJson
  | arr : List PyJson → PyJson
  | obj : List (String × PyJson) → PyJson

/-- The opening-brace character. -/
def openBraceChar : Char := Char.ofNat 123

/-- The closing-brace character. -/
def closeBraceChar : Char := Char.ofNat 125

/-- JSON insignificant whitespace. -/
def isJsonWs (c : Char) : Bool :=
  c == ' ' || c == '\t' || c == '\n' || c == '\r'

/-- Drop leading JSON whitespace. -/
def skipWs : List Char → List Char
  | [] => []
  | c :: cs => if isJsonWs c then skipWs cs else c :: cs

/-- Value of one hexadecimal digit. -/
def hexVal (c : Char) : Option ℕ :=
  if '0' ≤ c ∧ c ≤ '9' then some (c.toNat - 48)
  else if 'a' ≤ c ∧ c ≤ 'f' then some (c.toNat - 87)
  else if 'A' ≤ c ∧ c ≤ 'F' then some (c.toNat - 55)
  else none

/-- Read the body of a JSON string after the opening quote, handling the
escape sequences `json.loads` accepts and rejecting raw control
characters; `acc` holds the decoded characters in reverse. -/
def parseStringAux : ℕ → List Char → List Char → Option (String × List Char)
  | 0, _, _ => none
  | _ + 1, [], _ => none
  | fuel + 1, c :: rest, acc =>
    if c == '"' then some (String.mk acc.reverse, rest)
    else if c == '\\' then
      match rest with
      | [] => none
      | e :: rest2 =>
        if e == '"' then parseStringAux fuel rest2 ('"' :: acc)
        else if e == '\\' then parseStringAux fuel rest2 ('\\' :: acc)
        else if e == '/' then parseStringAux fuel rest2 ('/' :: acc)
        else if e == 'b' then parseStringAux fuel rest2 (Char.ofNat 8 :: acc)
        else if e == 'f' then parseStringAux fuel rest2 (Char.ofNat 12 :: acc)
        else if e == 'n' then parseStringAux fuel rest2 ('\n' :: acc)
        else if e == 'r' then parseStringAux fuel rest2 ('\r' :: acc)
        else if e == 't' then parseStringAux fuel rest2 ('\t' :: acc)
        else if e == 'u' then
          match rest2 with
          | a :: b :: c2 :: d :: rest3 =>
            match hexVal a, hexVal b, hexVal c2, hexVal d with
            | some va, some vb, some vc, some vd =>
              parseStringAux fuel rest3
                (Char.ofNat (va * 4096 + vb * 256 + vc * 16 + vd) :: acc)
            | _, _, _, _ => none
          | _ => none
        else none
    else if c.toNat < 32 then none
    else parseStringAux fuel rest (c :: acc)

/-- Decimal value of a digit list. -/
def digitsToNat (ds : List Char) : ℕ :=
  ds.foldl (fun n c => n * 10 + (c.toNat - 48)) 0

/-- Read an optional JSON exponent suffix and finish the number. -/
def parseExponent (base : ℚ) (neg : Bool) (cs : List Char) :
    Option (ℚ × List Char) :=
  match cs with
  | c :: rest =>
    if c == 'e' || c == 'E' then
      let (esign, rest2) : ℤ × List Char :=
        match rest with
        | s :: r2 =>
          if s == '+' then (1, r2) else if s == '-' then (-1, r2) else (1, rest)
        | [] => (1, rest)
      let (es, rest3) := rest2.span (fun c => c.isDigit)
      if es = [] then none
      else
        let v := base * (10 : ℚ) ^ (esign * (digitsToNat es : ℤ))
        some ((if neg then -v else v), rest3)
    else some ((if neg then -base else base), cs)
  | [] => some ((if neg then -base else base), cs)

/-- Read a JSON number (sign, integer part without leading zeros,
optional fraction, optional exponent). -/
def parseNumber (cs : List Char) : Option (ℚ × List Char) :=
  let (neg, cs1) :=
    match cs with
    | c :: rest => if c == '-' then (true, rest) else (false, cs)
    | [] => (false, cs)
  match cs1 with
  | [] => none
  | c :: _ =>
    if c.isDigit then
      let (ds, cs2) := cs1.span (fun c => c.isDigit)
      if 1 < ds.length ∧ ds.headD '0' == '0' then none
      else
        let ipart : ℚ := (digitsToNat ds : ℚ)
        match cs2 with
        | '.' :: cs3 =>
          let (fs, cs4) := cs3.span (fun c => c.isDigit)
          if fs = [] then none
          else parseExponent (ipart + (digitsToNat fs : ℚ) / ((10 : ℚ) ^ fs.length)) neg cs4
        | _ => parseExponent ipart neg cs2
    else none

/-- Insert a key into an object under construction, overwriting the
value but keeping the position of an existing key, as a Python dict
does. -/
def addKey (acc : List (String × PyJson)) (k : String) (v : PyJson) :
    List (String × PyJson) :=
  if acc.any (fun kv => kv.1 == k) then
    acc.map (fun kv => if kv.1 == k then (k, v) else kv)
  else acc ++ [(k, v)]

mutual

/-- Read one JSON value; the fuel bounds nesting and loop depth and is
never exhausted for inputs no longer than the fuel. -/
def parseValue : ℕ → List Char → Option (PyJson × List Char)
  | 0, _ => none
  | fuel + 1, cs =>
    match skipWs cs with
    | [] => none
    | c :: rest =>
      if c == '"' then
        match parseStringAux (rest.length + 1) rest [] with
        | some (s, r) => some (PyJson.str s, r)
        | none => none
      else if c == openBraceChar then
        match skipWs rest with
        | c2 :: r2 =>
          if c2 == closeBraceChar then some (PyJson.obj [], r2)
          else parseObjRest fuel (c2 :: r2) []
        | [] => none
      else if c == '[' then
        match skipWs rest with
        | c2 :: r2 =>
          if c2 == ']' then some (PyJson.arr [], r2)
          else parseArrRest fuel (c2 :: r2) []
        | [] => none
      else if c == 't' then
        match rest with
        | 'r' :: 'u' :: 'e' :: r => some (PyJson.bool true, r)
        | _ => none
      else if c == 'f' then
        match rest with
        | 'a' :: 'l' :: 's' :: 'e' :: r => some (PyJson.bool false, r)
        | _ => none
      else if c == 'n' then
        match rest with
        | 'u' :: 'l' :: 'l' :: r => some (PyJson.null, r)
        | _ => none
      else
        match parseNumber (c :: rest) with
        | some (q, r) => some (PyJson.num q, r)
        | none => none

/-- Read the members of an object after its opening brace (nonempty
case). -/
def parseObjRest : ℕ → List Char → List (String × PyJson) →
    Option (PyJson × List Char)
  | 0, _, _ => none
  | fuel + 1, cs, acc =>
    match skipWs cs with
    | c :: rest =>
      if c == '"' then
        match parseStringAux (rest.length + 1) rest [] with
        | some (k, r1) =>
          match skipWs r1 with
          | c2 :: r2 =>
            if c2 == ':' then
              match parseValue fuel r2 with
              | some (v, r3) =>
                match skipWs r3 with
                | c3 :: r4 =>
                  if c3 == ',' then parseObjRest fuel r4 (addKey acc k v)
                  else if c3 == closeBraceChar then
                    some (PyJson.obj (addKey acc k v), r4)
                  else none
                | [] => none
              | none => none
            else none
          | [] => none
        | none => none
      else none
    | [] => none

/-- Read the elements of an array after its opening bracket (nonempty
case). -/
def parseArrRest : ℕ → List Char → List PyJson → Option (PyJson × List Char)
  | 0, _, _ => none
  | fuel + 1, cs, acc =>
    match parseValue fuel cs with
    | some (v, r1) =>
      match skipWs r1 with
      | c :: r2 =>
        if c == ',' then parseArrRest fuel r2 (acc ++ [v])
        else if c == ']' then some (PyJson.arr (acc ++ [v]), r2)
        else none
      | [] => none
    | none => none

end

/-- Model of Python `json.loads`: parse one JSON value and require only
whitespace after it. -/
def jsonLoads (s : String) : Option PyJson :=
  match parseValue (s.length + 1) s.data with
  | some (v, rest) => if skipWs rest = [] then some v else none
  | none => none

/-- The parse step of `classify_post_async` (classifier_parallel.py line
166 with the handlers at lines 172-177): one direct `json.loads` of the
response; a decode error makes the post's classification fail with no
further attempt. -/
def classify_parse (s : String) : Option PyJson := jsonLoads s

/-- Python `str.find`: index of the first occurrence or `-1`. -/
def pyFindAux : List Char → Char → ℕ → ℤ
  | [], _, _ => -1
  | x :: xs, c, i => if x == c then (i : ℤ) else pyFindAux xs c (i + 1)

/-- Python `s.find(c)`. -/
def pyFind (cs : List Char) (c : Char) : ℤ := pyFindAux cs c 0

/-- Python `s.rfind(c)`: index of the last occurrence or `-1`. -/
def pyRfind (cs : List Char) (c : Char) : ℤ :=
  let r := pyFindAux cs.reverse c 0
  if r < 0 then -1 else (cs.length : ℤ) - 1 - r

/-- The parse step of `extract_insights` (extractor.py lines 104-113):
`start = result.find(openbrace); end = result.rfind(closebrace) + 1;
if start >= 0 and end > start: json.loads(result[start:end])`, with a
decode error yielding `None`.  There is no separate direct parse. -/
def extract_insights_parse (s : String) : Option PyJson :=
  let cs := s.data
  let start := pyFind cs openBraceChar
  let stop := pyRfind cs closeBraceChar + 1
  if 0 ≤ start ∧ start < stop then
    jsonLoads (String.mk ((cs.drop start.toNat).take (stop - start).toNat))
  else none

/-- The response `x` followed by an empty JSON object: direct parsing
fails, the brace-delimited substring parses. -/
def c7s : String := String.mk ['x', openBraceChar, closeBraceChar]

/-- C7 counterexample: on the response `x` + `(openbrace)(closebrace)`,
the v2 engine's parse (`classify_parse`, a bare `json.loads`) fails
definitively although the recovery pass the claim describes — parsing
the substring from the first opening to the last closing brace, as the
legacy `extract_insights` does — succeeds.  The v2 engine has no
recovery pass. -/
theorem classify_parse_no_recovery_example :
    classify_parse c7s = none ∧
    extract_insights_parse c7s = some (PyJson.obj []) := by
  constructor <;> rfl

/-- C7 (amended): in `classifier_parallel.py` the engine's parse is
exactly one direct `json.loads` (so it fails whenever direct parsing
fails, with no recovery pass), while the legacy extractor's
`extract_insights` applies only the substring pass: it returns `None`
when no opening brace exists or the last closing brace precedes the
first opening brace, and otherwise parses exactly the brace-delimited
substring. -/
theorem parse_paths_characterization (s : String) :
    classify_parse s = jsonLoads s ∧
    (pyFind s.data openBraceChar = -1 → extract_insights_parse s = none) ∧
    (∀ a b : ℤ, pyFind s.data openBraceChar = a → pyRfind s.data closeBraceChar = b →
      0 ≤ a → a ≤ b →
      extract_insights_parse s =
        jsonLoads (String.mk ((s.data.drop a.toNat).take (b + 1 - a).toNat))) ∧
    (∀ a b : ℤ, pyFind s.data openBraceChar = a → pyRfind s.data closeBraceChar = b →
      b < a → extract_insights_parse s = none) := by
  refine ⟨rfl, ?_, ?_, ?_⟩
  · intro h
    simp only [extract_insights_parse, h]
    rw [if_neg (fun hcon => absurd hcon.1 (by norm_num))]
  · intro a b ha hb h0 hab
    simp only [extract_insights_parse, ha, hb]
    rw [if_pos ⟨h0, by omega⟩]
  · intro a b ha hb hlt
    simp only [extract_insights_parse, ha, hb]
    rw [if_neg (by omega)]

/-- Witness: `parse_paths_characterization` at the concrete response
`c7s`, whose first opening brace is at index 1 and last closing brace at
index 2. -/
theorem parse_paths_characterization_witness :
    classify_parse c7s = jsonLoads c7s ∧
    extract_insights_parse c7s =
      jsonLoads (String.mk ((c7s.data.drop (1 : ℤ).toNat).take ((2 : ℤ) + 1 - 1).toNat)) := by
  have h := parse_paths_characterization c7s
  exact ⟨h.1, h.2.2.1 1 2 rfl rfl (by norm_num) (by norm_num)⟩

end Cannect
